import Mathlib

/-!
Shallow embedding of the YNAB-like ledger engine.

Sources embedded:
* `src/budget-engine.js` — `assignMoney` (pure allocation step);
* `src/api/categories.js` — the `assign` handler;
* the transactions handler (`createTransactionsHandler`): `spendingAmount`,
  `ensureCategoryAvailability`, `create`, `patch`, `remove`.

Modelling decisions, faithful to the source:
* Monetary amounts are modelled as integers (`ℤ`): the service stores exact
  decimals, and every property below is sign and linear arithmetic over
  amounts, invariant under the choice of ordered field or ring.
* The Prisma store is a `DB` record of lists; `findFirst` is `List.find?`,
  `update` maps over the list, `delete` filters.
* `prisma.$transaction(async (tx) => ...)` commits when the callback returns
  normally (including when it returns a 404 result object) and rolls back
  only when the callback throws.  Hence every operation returns
  `Outcome × DB`: a thrown error yields the original `DB` (rollback), while
  a returned result object yields the `DB` with all writes made so far.
* JavaScript field semantics are kept: an omitted field of a PATCH body is
  `Option.none` at the outer level, an explicit `null` is `some none`;
  the truthiness test `categoryId && ...` is false for `null`/absent and
  for the empty string.
-/

namespace Ynab

/-- Truthiness of an optional string, as JavaScript evaluates `categoryId && ...`:
`null`/`undefined` and the empty string are falsy. -/
def truthy : Option String → Bool
  | none => false
  | some s => s ≠ ""

/-- Embeds `spendingAmount(categoryId, amount)`:
`categoryId && amount > 0 ? amount : 0`. -/
def spendingAmount (categoryId : Option String) (amount : ℤ) : ℤ :=
  if truthy categoryId = true ∧ 0 < amount then amount else 0

/-- Errors thrown inside the handlers (they abort and roll back the enclosing
database transaction). -/
inductive LedgerError where
  | categoryNotFound
  | overextended
  | invalidAmount
  | insufficientFunds
deriving DecidableEq, Repr

/-- Result of one handler call: `ok status` for a 2xx return, `notFound msg`
for a 404 result object returned from inside the callback (which still
commits), `thrown e` for an exception (which rolls back). -/
inductive Outcome where
  | ok (status : Nat)
  | notFound (msg : String)
  | thrown (e : LedgerError)
deriving DecidableEq, Repr

structure Account where
  id : String
  userId : String
  balance : ℤ
deriving DecidableEq, Repr

structure BudgetMonth where
  id : String
  userId : String
  month : Int
  availableToBudget : ℤ
deriving DecidableEq, Repr

structure Category where
  id : String
  budgetMonthId : String
  assigned : ℤ
  spent : ℤ
deriving DecidableEq, Repr

structure Txn where
  id : String
  accountId : String
  categoryId : Option String
  amount : ℤ
  date : Int
  payee : Option String
  memo : Option String
  cleared : Bool
deriving DecidableEq, Repr

structure DB where
  accounts : List Account
  budgetMonths : List BudgetMonth
  categories : List Category
  transactions : List Txn
deriving DecidableEq, Repr

/-- Embeds `tx.account.findFirst({ where: { id: accountId, userId } })`. -/
def findAccount (db : DB) (userId accountId : String) : Option Account :=
  db.accounts.find? fun a => decide (a.id = accountId ∧ a.userId = userId)

/-- Whether some account row has this id and belongs to this user (the
relational filter `account: { userId }` used on transaction queries). -/
def ownsAccount (db : DB) (userId accountId : String) : Bool :=
  db.accounts.any fun a => decide (a.id = accountId ∧ a.userId = userId)

/-- Embeds `tx.category.findFirst({ where: { id: categoryId, budgetMonth: { userId } } })`. -/
def findCategoryOwned (db : DB) (userId categoryId : String) : Option Category :=
  db.categories.find? fun c => decide (c.id = categoryId) &&
    db.budgetMonths.any fun b => decide (b.id = c.budgetMonthId ∧ b.userId = userId)

/-- Embeds `tx.transaction.findFirst({ where: { id: transactionId, account: { userId } } })`. -/
def findTxn (db : DB) (userId transactionId : String) : Option Txn :=
  db.transactions.find? fun t => decide (t.id = transactionId) && ownsAccount db userId t.accountId

/-- Embeds `tx.account.update({ where: { id }, data: { balance: { increment: delta } } })`
(a decrement is an increment by the negated delta). -/
def updateBalance (db : DB) (accountId : String) (delta : ℤ) : DB :=
  { db with accounts := db.accounts.map fun a =>
      if a.id = accountId then { a with balance := a.balance + delta } else a }

/-- Embeds `tx.category.update({ where: { id }, data: { spent: { increment: delta } } })`. -/
def updateSpent (db : DB) (categoryId : String) (delta : ℤ) : DB :=
  { db with categories := db.categories.map fun c =>
      if c.id = categoryId then { c with spent := c.spent + delta } else c }

/-- Embeds `ensureCategoryAvailability(tx, userId, categoryId, spendAmount, previousSpend)`.
Returns `none` when the check passes (the JS function returns), `some e`
when it throws. -/
def ensureCategoryAvailability (db : DB) (userId : String) (categoryId : Option String)
    (spendAmount previousSpend : ℤ) : Option LedgerError :=
  if truthy categoryId = false ∨ spendAmount ≤ 0 then none
  else
    match findCategoryOwned db userId (categoryId.getD "") with
    | none => some .categoryNotFound
    | some category =>
      if spendAmount > category.assigned - (category.spent - previousSpend)
      then some .overextended
      else none

/-- Body of a validated POST /transactions request (after `createSchema.parse`). -/
structure CreateInput where
  accountId : String
  categoryId : Option String
  amount : ℤ
  date : Int
  payee : Option String
  memo : Option String
  cleared : Option Bool
deriving DecidableEq, Repr

/-- The row `tx.transaction.create({ data: { ...input, amount, date } })`
inserts, with `newId` the id the store generates for it. -/
def createdTxn (input : CreateInput) (newId : String) : Txn :=
  { id := newId, accountId := input.accountId, categoryId := input.categoryId,
    amount := input.amount, date := input.date, payee := input.payee,
    memo := input.memo, cleared := input.cleared.getD false }

/-- Embeds the `create` handler.  `newId` stands for the id the store
generates for the inserted row. -/
def create (db : DB) (userId : String) (input : CreateInput) (newId : String) : Outcome × DB :=
  match findAccount db userId input.accountId with
  | none => (.notFound "Account not found", db)
  | some account =>
    let spend := spendingAmount input.categoryId input.amount
    match ensureCategoryAvailability db userId input.categoryId spend 0 with
    | some e => (.thrown e, db)
    | none =>
      let created := createdTxn input newId
      let db1 : DB := { db with transactions := db.transactions ++ [created] }
      let db2 := updateBalance db1 account.id (-input.amount)
      let db3 := if 0 < spend then updateSpent db2 (input.categoryId.getD "") spend else db2
      (.ok 201, db3)

/-- Body of a validated PATCH /transactions/:id request (after
`patchSchema.parse`, every field optional).  For the fields whose merge
distinguishes an explicit `null` from an omitted field (`categoryId`,
`payee`, `memo`), the outer `Option` is presence in the payload and the
inner one is nullability. -/
structure PatchInput where
  accountId : Option String
  categoryId : Option (Option String)
  amount : Option ℤ
  date : Option Int
  payee : Option (Option String)
  memo : Option (Option String)
  cleared : Option Bool
deriving DecidableEq, Repr

/-- A PATCH body with every field omitted. -/
def PatchInput.empty : PatchInput :=
  { accountId := none, categoryId := none, amount := none, date := none,
    payee := none, memo := none, cleared := none }

/-- Embeds the `next` merged-state computation of `patch`: unspecified fields
keep the prior values, `??` for the non-nullable fields, explicit
`=== undefined` checks for `categoryId`, `payee`, `memo`. -/
def mergeNext (existing : Txn) (input : PatchInput) : Txn :=
  { id := existing.id
    accountId := input.accountId.getD existing.accountId
    categoryId := match input.categoryId with
      | none => existing.categoryId
      | some c => c
    amount := input.amount.getD existing.amount
    date := input.date.getD existing.date
    payee := match input.payee with
      | none => existing.payee
      | some p => p
    memo := match input.memo with
      | none => existing.memo
      | some m => m
    cleared := input.cleared.getD existing.cleared }

/-- Embeds `tx.transaction.update({ where: { id: transactionId }, data: ... })`. -/
def setTxnRow (db : DB) (transactionId : String) (next : Txn) : DB :=
  { db with transactions := db.transactions.map fun t =>
      if t.id = transactionId then next else t }

/-- Embeds the first conditional category-spend write at the end of `patch`:
`if (existing.categoryId && oldSpend > 0)` decrement the old category. -/
def adjustOldCategory (db : DB) (existing : Txn) (oldSpend : ℤ) : DB :=
  if truthy existing.categoryId = true ∧ 0 < oldSpend
  then updateSpent db (existing.categoryId.getD "") (-oldSpend) else db

/-- Embeds the two conditional category-spend writes at the end of `patch`
(decrement the old category by `oldSpend`, then increment the new one by
`newSpend`). -/
def adjustCategories (db : DB) (existing next : Txn) (oldSpend newSpend : ℤ) : DB :=
  if truthy next.categoryId = true ∧ 0 < newSpend
  then updateSpent (adjustOldCategory db existing oldSpend) (next.categoryId.getD "") newSpend
  else adjustOldCategory db existing oldSpend

/-- Embeds the `patch` handler.  The transaction-row update precedes the
account reconciliation, exactly as in the source; returning the 404 result
for a missing new account commits the row update already made. -/
def patch (db : DB) (userId transactionId : String) (input : PatchInput) : Outcome × DB :=
  match findTxn db userId transactionId with
  | none => (.notFound "Transaction not found", db)
  | some existing =>
    let next := mergeNext existing input
    let oldSpend := spendingAmount existing.categoryId existing.amount
    let newSpend := spendingAmount next.categoryId next.amount
    let previousSpend := if next.categoryId = existing.categoryId then oldSpend else 0
    match ensureCategoryAvailability db userId next.categoryId newSpend previousSpend with
    | some e => (.thrown e, db)
    | none =>
      let db1 := setTxnRow db transactionId next
      if next.accountId = existing.accountId then
        let db2 := updateBalance db1 existing.accountId (existing.amount - next.amount)
        (.ok 200, adjustCategories db2 existing next oldSpend newSpend)
      else
        match findAccount db1 userId next.accountId with
        | none => (.notFound "New account not found", db1)
        | some _ =>
          let db2 := updateBalance db1 existing.accountId existing.amount
          let db3 := updateBalance db2 next.accountId (-next.amount)
          (.ok 200, adjustCategories db3 existing next oldSpend newSpend)

/-- Embeds the `remove` handler. -/
def remove (db : DB) (userId transactionId : String) : Outcome × DB :=
  match findTxn db userId transactionId with
  | none => (.notFound "Transaction not found", db)
  | some existing =>
    let oldSpend := spendingAmount existing.categoryId existing.amount
    let db1 := updateBalance db existing.accountId existing.amount
    let db2 := if truthy existing.categoryId = true ∧ 0 < oldSpend
      then updateSpent db1 (existing.categoryId.getD "") (-oldSpend) else db1
    let db3 : DB := { db2 with transactions := db2.transactions.filter fun t => t.id ≠ transactionId }
    (.ok 200, db3)

/-- Result record of `assignMoney` in `src/budget-engine.js`. -/
structure EngineResult where
  assigned : ℤ
  availableToBudget : ℤ
deriving DecidableEq, Repr

/-- Embeds `assignMoney({availableToBudget, assigned})`: throws on a negative
request, throws when the request exceeds the pool, otherwise returns the new
pool value. -/
def assignMoney (availableToBudget assigned : ℤ) : Except LedgerError EngineResult :=
  if assigned < 0 then .error .invalidAmount
  else if assigned > availableToBudget then .error .insufficientFunds
  else .ok { assigned := assigned, availableToBudget := availableToBudget - assigned }

/-- Embeds `tx.budgetMonth.findUnique({ where: { userId_month: { userId, month } } })`. -/
def findBudgetMonth (db : DB) (userId : String) (month : Int) : Option BudgetMonth :=
  db.budgetMonths.find? fun b => decide (b.userId = userId ∧ b.month = month)

/-- Embeds `tx.category.findFirst({ where: { id: categoryId, budgetMonthId: budget.id } })`. -/
def findCategoryInBudget (db : DB) (categoryId budgetId : String) : Option Category :=
  db.categories.find? fun c => decide (c.id = categoryId ∧ c.budgetMonthId = budgetId)

/-- Embeds the `assign` handler of `src/api/categories.js`.  The zod schema
`z.number().nonnegative()` rejects a negative amount before the database
transaction starts; inside the transaction, an `assignMoney` failure throws
and rolls back. -/
def assign (db : DB) (userId : String) (month : Int) (categoryId : String) (amount : ℤ) :
    Outcome × DB :=
  if amount < 0 then (.thrown .invalidAmount, db)
  else
    match findBudgetMonth db userId month with
    | none => (.notFound "Budget month not found", db)
    | some budget =>
      match findCategoryInBudget db categoryId budget.id with
      | none => (.notFound "Category not found", db)
      | some category =>
        match assignMoney budget.availableToBudget amount with
        | .error e => (.thrown e, db)
        | .ok engine =>
          let db1 : DB := { db with budgetMonths := db.budgetMonths.map fun b =>
              if b.id = budget.id then { b with availableToBudget := engine.availableToBudget } else b }
          let db2 : DB := { db1 with categories := db1.categories.map fun c =>
              if c.id = category.id then { c with assigned := c.assigned + amount } else c }
          (.ok 200, db2)

/-- Sum of the stored signed amounts of the transactions referencing an
account (the derivation base of the balance-identity invariant). -/
def txnSum (db : DB) (accountId : String) : ℤ :=
  ((db.transactions.filter fun t => t.accountId = accountId).map Txn.amount).sum

/-- Sum of the spend contributions of the transactions referencing a category
(the derivation base of the spend-identity invariant). -/
def spentSum (db : DB) (categoryId : String) : ℤ :=
  ((db.transactions.filter fun t => t.categoryId = some categoryId).map
    fun t => spendingAmount t.categoryId t.amount).sum

/-!  Helper lemmas about the store operations. -/

@[simp] theorem updateBalance_categories (db : DB) (k : String) (d : ℤ) :
    (updateBalance db k d).categories = db.categories := rfl

@[simp] theorem updateBalance_transactions (db : DB) (k : String) (d : ℤ) :
    (updateBalance db k d).transactions = db.transactions := rfl

@[simp] theorem updateBalance_budgetMonths (db : DB) (k : String) (d : ℤ) :
    (updateBalance db k d).budgetMonths = db.budgetMonths := rfl

@[simp] theorem updateSpent_accounts (db : DB) (k : String) (d : ℤ) :
    (updateSpent db k d).accounts = db.accounts := rfl

@[simp] theorem updateSpent_transactions (db : DB) (k : String) (d : ℤ) :
    (updateSpent db k d).transactions = db.transactions := rfl

@[simp] theorem updateSpent_budgetMonths (db : DB) (k : String) (d : ℤ) :
    (updateSpent db k d).budgetMonths = db.budgetMonths := rfl

@[simp] theorem setTxnRow_accounts (db : DB) (k : String) (next : Txn) :
    (setTxnRow db k next).accounts = db.accounts := rfl

@[simp] theorem setTxnRow_categories (db : DB) (k : String) (next : Txn) :
    (setTxnRow db k next).categories = db.categories := rfl

@[simp] theorem setTxnRow_budgetMonths (db : DB) (k : String) (next : Txn) :
    (setTxnRow db k next).budgetMonths = db.budgetMonths := rfl

@[simp] theorem adjustOldCategory_accounts (db : DB) (e : Txn) (os : ℤ) :
    (adjustOldCategory db e os).accounts = db.accounts := by
  unfold adjustOldCategory; split <;> rfl

@[simp] theorem adjustOldCategory_transactions (db : DB) (e : Txn) (os : ℤ) :
    (adjustOldCategory db e os).transactions = db.transactions := by
  unfold adjustOldCategory; split <;> rfl

@[simp] theorem adjustCategories_accounts (db : DB) (e n : Txn) (os ns : ℤ) :
    (adjustCategories db e n os ns).accounts = db.accounts := by
  unfold adjustCategories; split <;> simp

@[simp] theorem adjustCategories_transactions (db : DB) (e n : Txn) (os ns : ℤ) :
    (adjustCategories db e n os ns).transactions = db.transactions := by
  unfold adjustCategories; split <;> simp

theorem spendingAmount_pos {cid : Option String} {amt : ℤ}
    (h : 0 < spendingAmount cid amt) :
    truthy cid = true ∧ 0 < amt ∧ spendingAmount cid amt = amt := by
  unfold spendingAmount at h ⊢
  split at h
  case isTrue hc => exact ⟨hc.1, hc.2, if_pos hc⟩
  case isFalse => exact absurd h (lt_irrefl 0)

theorem spendingAmount_eq_zero {cid : Option String} {amt : ℤ}
    (h : truthy cid = false ∨ amt ≤ 0) : spendingAmount cid amt = 0 := by
  unfold spendingAmount
  rcases h with h | h
  · simp [h]
  · have h2 : ¬ (0:ℤ) < amt := not_lt.mpr h
    simp [h2]

theorem spendingAmount_nonneg (cid : Option String) (amt : ℤ) :
    0 ≤ spendingAmount cid amt := by
  unfold spendingAmount
  split
  case isTrue hc => exact le_of_lt hc.2
  case isFalse => exact le_refl 0

theorem ensureCategoryAvailability_of_nonpos (db : DB) (uid : String)
    (cid : Option String) (s p : ℤ) (h : s ≤ 0) :
    ensureCategoryAvailability db uid cid s p = none := by
  unfold ensureCategoryAvailability
  exact if_pos (Or.inr h)

theorem ensureCategoryAvailability_of_falsy (db : DB) (uid : String)
    (cid : Option String) (s p : ℤ) (h : truthy cid = false) :
    ensureCategoryAvailability db uid cid s p = none := by
  unfold ensureCategoryAvailability
  exact if_pos (Or.inl h)

theorem adjustOldCategory_of_nonpos (db : DB) (e : Txn) (os : ℤ) (h : os ≤ 0) :
    adjustOldCategory db e os = db := by
  unfold adjustOldCategory
  simp [not_lt.mpr h]

theorem adjustCategories_of_nonpos (db : DB) (e n : Txn) (os ns : ℤ)
    (h1 : os ≤ 0) (h2 : ns ≤ 0) : adjustCategories db e n os ns = db := by
  unfold adjustCategories
  rw [adjustOldCategory_of_nonpos db e os h1]
  simp [not_lt.mpr h2]

theorem list_map_id_of_eq {α : Type} {f : α → α} {l : List α}
    (h : ∀ a ∈ l, f a = a) : l.map f = l :=
  (List.map_congr_left h).trans (List.map_id l)

theorem remove_of_findTxn_none (db : DB) (uid txId : String)
    (h : findTxn db uid txId = none) :
    remove db uid txId = (.notFound "Transaction not found", db) := by
  simp [remove, h]

theorem remove_transactions_of_some (db : DB) (uid txId : String) (existing : Txn)
    (h : findTxn db uid txId = some existing) :
    ((remove db uid txId).2).transactions =
      db.transactions.filter (fun t => t.id ≠ txId) := by
  simp only [remove, h]
  split <;> simp

theorem balance_map_cancel (l : List Account) (k : String) (d1 d2 : ℤ)
    (h : d1 + d2 = 0) :
    ((l.map fun a => if a.id = k then { a with balance := a.balance + d1 } else a).map
      fun a => if a.id = k then { a with balance := a.balance + d2 } else a) = l := by
  rw [List.map_map]
  apply list_map_id_of_eq
  intro a _
  by_cases hk : a.id = k
  · have hb : a.balance + d1 + d2 = a.balance := by omega
    simp [Function.comp, hk, hb]
    rw [← hk]
  · simp [Function.comp, hk]

theorem spent_map_cancel (l : List Category) (k : String) (d1 d2 : ℤ)
    (h : d1 + d2 = 0) :
    ((l.map fun c => if c.id = k then { c with spent := c.spent + d1 } else c).map
      fun c => if c.id = k then { c with spent := c.spent + d2 } else c) = l := by
  rw [List.map_map]
  apply list_map_id_of_eq
  intro c _
  by_cases hk : c.id = k
  · have hs : c.spent + d1 + d2 = c.spent := by omega
    simp [Function.comp, hk, hs]
    rw [← hk]
  · simp [Function.comp, hk]

theorem create_ok_parts (db : DB) (uid : String) (input : CreateInput)
    (newId : String) (account : Account)
    (hacc : findAccount db uid input.accountId = some account)
    (hens : ensureCategoryAvailability db uid input.categoryId
      (spendingAmount input.categoryId input.amount) 0 = none) :
    (create db uid input newId).1 = .ok 201 ∧
    ((create db uid input newId).2).transactions =
      db.transactions ++ [createdTxn input newId] ∧
    ((create db uid input newId).2).accounts =
      db.accounts.map (fun a => if a.id = account.id
        then { a with balance := a.balance + -input.amount } else a) ∧
    ((create db uid input newId).2).categories =
      (if 0 < spendingAmount input.categoryId input.amount
       then db.categories.map (fun c => if c.id = input.categoryId.getD ""
         then { c with spent := c.spent + spendingAmount input.categoryId input.amount } else c)
       else db.categories) ∧
    ((create db uid input newId).2).budgetMonths = db.budgetMonths := by
  refine ⟨?_, ?_, ?_, ?_, ?_⟩
  · simp [create, hacc, hens]
  · simp only [create, hacc, hens]
    split <;> rfl
  · simp only [create, hacc, hens]
    split <;> rfl
  · simp only [create, hacc, hens]
    split <;> rfl
  · simp only [create, hacc, hens]
    split <;> rfl

theorem patch_same_account_result (db : DB) (uid txId : String) (input : PatchInput)
    (existing : Txn) (hfind : findTxn db uid txId = some existing)
    (hens : ensureCategoryAvailability db uid (mergeNext existing input).categoryId
      (spendingAmount (mergeNext existing input).categoryId (mergeNext existing input).amount)
      (if (mergeNext existing input).categoryId = existing.categoryId
       then spendingAmount existing.categoryId existing.amount else 0) = none)
    (hsame : (mergeNext existing input).accountId = existing.accountId) :
    patch db uid txId input =
      (.ok 200, adjustCategories
        (updateBalance (setTxnRow db txId (mergeNext existing input)) existing.accountId
          (existing.amount - (mergeNext existing input).amount))
        existing (mergeNext existing input)
        (spendingAmount existing.categoryId existing.amount)
        (spendingAmount (mergeNext existing input).categoryId (mergeNext existing input).amount)) := by
  simp [patch, hfind, hens, hsame]

theorem ensureCategoryAvailability_found (db : DB) (uid : String)
    (cido : Option String) (cid : String) (cat : Category) (s p : ℤ)
    (hcid : cido = some cid) (htr : truthy cido = true) (hpos : 0 < s)
    (hcat : findCategoryOwned db uid cid = some cat) :
    ensureCategoryAvailability db uid cido s p =
      (if cat.assigned - (cat.spent - p) < s then some .overextended else none) := by
  have hne : ¬ (truthy cido = false ∨ s ≤ 0) := by
    rintro (hf | hle)
    · rw [htr] at hf; cases hf
    · exact absurd hpos (not_lt.mpr hle)
  unfold ensureCategoryAvailability
  rw [if_neg hne, hcid]
  simp only [Option.getD_some]
  rw [hcat]

/-!  Claim theorems. -/

/-- C9: the spend contribution equals the amount exactly when a (truthy)
category reference is attached and the amount is positive, and equals zero
otherwise; consequently a create, a patch whose superseded and merged
transaction versions both carry zero contribution, and a remove of a
zero-contribution transaction leave every category's spent value unchanged —
income and uncategorized transactions never touch category spend. -/
theorem C9_spendContribution :
    (∀ (cid : Option String) (amt : ℤ), truthy cid = true → 0 < amt →
      spendingAmount cid amt = amt) ∧
    (∀ (cid : Option String) (amt : ℤ), truthy cid = false ∨ amt ≤ 0 →
      spendingAmount cid amt = 0) ∧
    (∀ (db : DB) (uid : String) (input : CreateInput) (newId : String),
      spendingAmount input.categoryId input.amount = 0 →
      ((create db uid input newId).2).categories = db.categories) ∧
    (∀ (db : DB) (uid txId : String) (input : PatchInput) (existing : Txn),
      findTxn db uid txId = some existing →
      spendingAmount existing.categoryId existing.amount = 0 →
      spendingAmount (mergeNext existing input).categoryId (mergeNext existing input).amount = 0 →
      ((patch db uid txId input).2).categories = db.categories) ∧
    (∀ (db : DB) (uid txId : String) (existing : Txn),
      findTxn db uid txId = some existing →
      spendingAmount existing.categoryId existing.amount = 0 →
      ((remove db uid txId).2).categories = db.categories) := by
  refine ⟨?_, ?_, ?_, ?_, ?_⟩
  · intro cid amt hc ha
    unfold spendingAmount
    exact if_pos ⟨hc, ha⟩
  · intro cid amt h
    exact spendingAmount_eq_zero h
  · intro db uid input newId h
    cases hacc : findAccount db uid input.accountId with
    | none => simp [create, hacc]
    | some account =>
      have hens := ensureCategoryAvailability_of_nonpos db uid input.categoryId
        (spendingAmount input.categoryId input.amount) 0 (le_of_eq h)
      have hens0 := ensureCategoryAvailability_of_nonpos db uid input.categoryId 0 0 le_rfl
      simp [create, hacc, hens, hens0, h]
  · intro db uid txId input existing hfind hold hnew
    have hens := ensureCategoryAvailability_of_nonpos db uid
      (mergeNext existing input).categoryId
      (spendingAmount (mergeNext existing input).categoryId (mergeNext existing input).amount)
      (if (mergeNext existing input).categoryId = existing.categoryId
       then spendingAmount existing.categoryId existing.amount else 0)
      (le_of_eq hnew)
    have hadj : ∀ dbX : DB, adjustCategories dbX existing (mergeNext existing input)
        (spendingAmount existing.categoryId existing.amount)
        (spendingAmount (mergeNext existing input).categoryId (mergeNext existing input).amount) = dbX :=
      fun dbX => adjustCategories_of_nonpos dbX _ _ _ _ (le_of_eq hold) (le_of_eq hnew)
    by_cases hsame : (mergeNext existing input).accountId = existing.accountId
    · simp [patch, hfind, hens, hsame, hadj]
    · cases hfa : findAccount (setTxnRow db txId (mergeNext existing input)) uid
        (mergeNext existing input).accountId with
      | none => simp [patch, hfind, hens, hsame, hfa]
      | some newAccount =>
        simp [patch, hfind, hens, hsame, hfa, hadj]
  · intro db uid txId existing hfind hold
    simp [remove, hfind, hold]

/-- C8: removing a transaction id that does not resolve to an existing
transaction owned by the caller returns NotFound and leaves the whole store
untouched; in particular an immediately repeated remove of the same id
returns NotFound and changes nothing, so balances are never double-credited. -/
theorem C8_remove_notFound :
    (∀ (db : DB) (uid txId : String), findTxn db uid txId = none →
      remove db uid txId = (.notFound "Transaction not found", db)) ∧
    (∀ (db : DB) (uid txId : String) (existing : Txn),
      findTxn db uid txId = some existing →
      remove (remove db uid txId).2 uid txId =
        (.notFound "Transaction not found", (remove db uid txId).2)) := by
  constructor
  · intro db uid txId h
    exact remove_of_findTxn_none db uid txId h
  · intro db uid txId existing h
    have hnone : findTxn (remove db uid txId).2 uid txId = none := by
      unfold findTxn
      rw [remove_transactions_of_some db uid txId existing h, List.find?_eq_none]
      intro t ht
      have hne : t.id ≠ txId := by simpa using (List.mem_filter.mp ht).2
      simp [hne]
    exact remove_of_findTxn_none _ uid txId hnone

/-- Witness for C9 at concrete inputs: a categorized outflow of 5 contributes
5; an uncategorized amount contributes 0; a concrete uncategorized create,
patch and remove leave the (empty) category table unchanged. -/
theorem C9_spendContribution_witness :
    spendingAmount (some "groceries") 5 = 5 ∧
    spendingAmount none 5 = 0 ∧
    ((create ⟨[⟨"A", "u1", 0⟩], [], [], []⟩ "u1"
      ⟨"A", none, 7, 0, none, none, none⟩ "t1").2).categories = [] ∧
    ((patch ⟨[⟨"A", "u1", 0⟩], [], [], [⟨"t1", "A", none, -7, 0, none, none, false⟩]⟩
      "u1" "t1" { PatchInput.empty with amount := some (-9) }).2).categories = [] ∧
    ((remove ⟨[⟨"A", "u1", 0⟩], [], [], [⟨"t1", "A", none, -7, 0, none, none, false⟩]⟩
      "u1" "t1").2).categories = [] :=
  ⟨C9_spendContribution.1 (some "groceries") 5 (by decide) (by decide),
   C9_spendContribution.2.1 none 5 (Or.inl (by decide)),
   C9_spendContribution.2.2.1 _ "u1" _ "t1" (by decide),
   C9_spendContribution.2.2.2.1 _ "u1" "t1" _
     (⟨"t1", "A", none, -7, 0, none, none, false⟩ : Txn)
     (by decide) (by decide) (by decide),
   C9_spendContribution.2.2.2.2 _ "u1" "t1"
     (⟨"t1", "A", none, -7, 0, none, none, false⟩ : Txn)
     (by decide) (by decide)⟩

/-- Witness for C8 at concrete inputs: removing an id with no matching
transaction, and removing the same transaction twice, both end in NotFound
with the store unchanged. -/
theorem C8_remove_notFound_witness :
    remove ⟨[], [], [], []⟩ "u1" "missing" =
      (.notFound "Transaction not found", ⟨[], [], [], []⟩) ∧
    remove (remove ⟨[⟨"A", "u1", 0⟩], [], [], [⟨"t1", "A", none, 5, 0, none, none, false⟩]⟩
        "u1" "t1").2 "u1" "t1" =
      (.notFound "Transaction not found",
       (remove ⟨[⟨"A", "u1", 0⟩], [], [], [⟨"t1", "A", none, 5, 0, none, none, false⟩]⟩
        "u1" "t1").2) :=
  ⟨C8_remove_notFound.1 _ "u1" "missing" (by decide),
   C8_remove_notFound.2 _ "u1" "t1"
     (⟨"t1", "A", none, 5, 0, none, none, false⟩ : Txn) (by decide)⟩

/-- C6: creating a categorized transaction whose spend contribution exceeds
the category's available amount (assigned minus spent) throws Overextended
before any write, so the returned store is exactly the input store — no
transaction row, balance or spent value is mutated. -/
theorem C6_create_overextended (db : DB) (uid : String) (input : CreateInput)
    (newId : String) (account : Account) (cid : String) (cat : Category)
    (hacc : findAccount db uid input.accountId = some account)
    (hcid : input.categoryId = some cid)
    (hcat : findCategoryOwned db uid cid = some cat)
    (hpos : 0 < spendingAmount input.categoryId input.amount)
    (hover : cat.assigned - cat.spent < spendingAmount input.categoryId input.amount) :
    create db uid input newId = (.thrown .overextended, db) := by
  obtain ⟨htr, -, -⟩ := spendingAmount_pos hpos
  have hens := ensureCategoryAvailability_found db uid input.categoryId cid cat
    (spendingAmount input.categoryId input.amount) 0 hcid htr hpos hcat
  rw [sub_zero, if_pos hover] at hens
  simp [create, hacc, hens]

/-- Witness for C6 at the spec's scenario 3: assigned 20, spent 15,
a categorized create of amount 10 is rejected with Overextended and the
store is returned unchanged. -/
theorem C6_create_overextended_witness :
    create ⟨[⟨"A", "u1", 100⟩], [⟨"bm1", "u1", 0, 0⟩], [⟨"C", "bm1", 20, 15⟩], []⟩
      "u1" ⟨"A", some "C", 10, 0, none, none, none⟩ "t9" =
      (.thrown .overextended,
       ⟨[⟨"A", "u1", 100⟩], [⟨"bm1", "u1", 0, 0⟩], [⟨"C", "bm1", 20, 15⟩], []⟩) :=
  C6_create_overextended _ "u1" _ "t9" (⟨"A", "u1", 100⟩ : Account) "C"
    (⟨"C", "bm1", 20, 15⟩ : Category)
    (by decide) (by decide) (by decide) (by decide) (by decide)

/-- C4: for a create, and for a patch, of a transaction whose merged state
carries a positive categorized spend against an existing owned category, the
operation throws Overextended exactly when the proposed spend exceeds
`assigned - (spent - spendBeingReplaced)`, where the replaced spend is 0 for
create, the prior contribution for a patch keeping the same categoryId, and
0 for a patch that changes the categoryId. -/
theorem C4_overextended_iff :
    (∀ (db : DB) (uid : String) (input : CreateInput) (newId : String)
       (account : Account) (cid : String) (cat : Category),
      findAccount db uid input.accountId = some account →
      input.categoryId = some cid →
      findCategoryOwned db uid cid = some cat →
      0 < spendingAmount input.categoryId input.amount →
      ((create db uid input newId).1 = .thrown .overextended ↔
        cat.assigned - (cat.spent - 0) < spendingAmount input.categoryId input.amount)) ∧
    (∀ (db : DB) (uid txId : String) (input : PatchInput) (existing : Txn)
       (cid : String) (cat : Category),
      findTxn db uid txId = some existing →
      (mergeNext existing input).categoryId = some cid →
      findCategoryOwned db uid cid = some cat →
      0 < spendingAmount (mergeNext existing input).categoryId (mergeNext existing input).amount →
      ((patch db uid txId input).1 = .thrown .overextended ↔
        cat.assigned - (cat.spent -
          (if (mergeNext existing input).categoryId = existing.categoryId
           then spendingAmount existing.categoryId existing.amount else 0)) <
        spendingAmount (mergeNext existing input).categoryId (mergeNext existing input).amount)) := by
  constructor
  · intro db uid input newId account cid cat hacc hcid hcat hpos
    obtain ⟨htr, -, -⟩ := spendingAmount_pos hpos
    have hens := ensureCategoryAvailability_found db uid input.categoryId cid cat
      (spendingAmount input.categoryId input.amount) 0 hcid htr hpos hcat
    constructor
    · intro hres
      by_contra hcond
      rw [if_neg hcond] at hens
      have hok : (create db uid input newId).1 = .ok 201 := by
        simp [create, hacc, hens]
      rw [hok] at hres
      exact Outcome.noConfusion hres
    · intro hcond
      rw [if_pos hcond] at hens
      simp [create, hacc, hens]
  · intro db uid txId input existing cid cat hfind hcid hcat hpos
    obtain ⟨htr, -, -⟩ := spendingAmount_pos hpos
    have hens := ensureCategoryAvailability_found db uid
      (mergeNext existing input).categoryId cid cat
      (spendingAmount (mergeNext existing input).categoryId (mergeNext existing input).amount)
      (if (mergeNext existing input).categoryId = existing.categoryId
       then spendingAmount existing.categoryId existing.amount else 0)
      hcid htr hpos hcat
    constructor
    · intro hres
      by_contra hcond
      rw [if_neg hcond] at hens
      by_cases hsame : (mergeNext existing input).accountId = existing.accountId
      · have hok : (patch db uid txId input).1 = .ok 200 := by
          simp [patch, hfind, hens, hsame]
        rw [hok] at hres
        exact Outcome.noConfusion hres
      · cases hfa : findAccount (setTxnRow db txId (mergeNext existing input)) uid
          (mergeNext existing input).accountId with
        | none =>
          have hok : (patch db uid txId input).1 = .notFound "New account not found" := by
            simp [patch, hfind, hens, hsame, hfa]
          rw [hok] at hres
          exact Outcome.noConfusion hres
        | some newAccount =>
          have hok : (patch db uid txId input).1 = .ok 200 := by
            simp [patch, hfind, hens, hsame, hfa]
          rw [hok] at hres
          exact Outcome.noConfusion hres
    · intro hcond
      rw [if_pos hcond] at hens
      simp [patch, hfind, hens]

/-- Witness for C4 at concrete inputs: a create of spend 10 against
available 20 − 15 = 5 is Overextended (both iff sides hold), and a patch of
a transaction from amount 10 to 21 keeping its category, with assigned 20
and spent 15, is Overextended since 21 > 20 − (15 − 10). -/
theorem C4_overextended_iff_witness :
    ((create ⟨[⟨"A", "u1", 100⟩], [⟨"bm1", "u1", 0, 0⟩], [⟨"C", "bm1", 20, 15⟩], []⟩
        "u1" ⟨"A", some "C", 10, 0, none, none, none⟩ "t9").1 = .thrown .overextended ↔
      (20 : ℤ) - (15 - 0) < spendingAmount (some "C") 10) ∧
    ((patch ⟨[⟨"A", "u1", 100⟩], [⟨"bm1", "u1", 0, 0⟩], [⟨"C", "bm1", 20, 15⟩],
        [⟨"t1", "A", some "C", 10, 0, none, none, false⟩]⟩
        "u1" "t1" { PatchInput.empty with amount := some 21 }).1 = .thrown .overextended ↔
      (20 : ℤ) - (15 -
        (if (mergeNext (⟨"t1", "A", some "C", 10, 0, none, none, false⟩ : Txn)
              { PatchInput.empty with amount := some 21 }).categoryId = some "C"
         then spendingAmount (some "C") 10 else 0)) <
      spendingAmount (some "C") 21) :=
  ⟨C4_overextended_iff.1 _ "u1" _ "t9" (⟨"A", "u1", 100⟩ : Account) "C"
     (⟨"C", "bm1", 20, 15⟩ : Category) (by decide) (by decide) (by decide) (by decide),
   C4_overextended_iff.2 _ "u1" "t1" _ (⟨"t1", "A", some "C", 10, 0, none, none, false⟩ : Txn)
     "C" (⟨"C", "bm1", 20, 15⟩ : Category) (by decide) (by decide) (by decide) (by decide)⟩

/-- C5: an assignment request of amount `a` against an existing budget month
with pool `v` and an existing category of that month fails with an
invalid-input error when `a < 0` (rejected by the schema before the
transaction), fails with InsufficientFunds when `a > v` (thrown, rolled
back), and otherwise succeeds with the month's pool set to `v - a` and the
category's assigned raised by `a`. -/
theorem C5_assign (db : DB) (uid : String) (month : Int) (categoryId : String)
    (amount : ℤ) (budget : BudgetMonth) (category : Category)
    (hb : findBudgetMonth db uid month = some budget)
    (hc : findCategoryInBudget db categoryId budget.id = some category) :
    (amount < 0 → assign db uid month categoryId amount = (.thrown .invalidAmount, db)) ∧
    (0 ≤ amount → budget.availableToBudget < amount →
      assign db uid month categoryId amount = (.thrown .insufficientFunds, db)) ∧
    (0 ≤ amount → amount ≤ budget.availableToBudget →
      (assign db uid month categoryId amount).1 = .ok 200 ∧
      ((assign db uid month categoryId amount).2).budgetMonths =
        db.budgetMonths.map (fun b => if b.id = budget.id
          then { b with availableToBudget := budget.availableToBudget - amount } else b) ∧
      ((assign db uid month categoryId amount).2).categories =
        db.categories.map (fun c => if c.id = category.id
          then { c with assigned := c.assigned + amount } else c)) := by
  refine ⟨?_, ?_, ?_⟩
  · intro hneg
    simp [assign, hneg]
  · intro h0 hover
    have hnneg : ¬ amount < 0 := not_lt.mpr h0
    have hAM : assignMoney budget.availableToBudget amount = .error .insufficientFunds := by
      unfold assignMoney
      rw [if_neg hnneg, if_pos hover]
    simp [assign, hnneg, hb, hc, hAM]
  · intro h0 hle
    have hnneg : ¬ amount < 0 := not_lt.mpr h0
    have hAM : assignMoney budget.availableToBudget amount =
        .ok ⟨amount, budget.availableToBudget - amount⟩ := by
      unfold assignMoney
      rw [if_neg hnneg, if_neg (not_lt.mpr hle)]
    refine ⟨?_, ?_, ?_⟩ <;> simp [assign, hnneg, hb, hc, hAM]

/-- Witness for C5 at the spec's scenario 1 numbers: pool 100, a negative
request is invalid, a request of 150 exceeds the pool, and a request of 60
leaves pool 40 and assigned 60. -/
theorem C5_assign_witness :
    assign ⟨[], [⟨"bm1", "u1", 0, 100⟩], [⟨"C", "bm1", 0, 0⟩], []⟩ "u1" 0 "C" (-1) =
      (.thrown .invalidAmount, ⟨[], [⟨"bm1", "u1", 0, 100⟩], [⟨"C", "bm1", 0, 0⟩], []⟩) ∧
    assign ⟨[], [⟨"bm1", "u1", 0, 100⟩], [⟨"C", "bm1", 0, 0⟩], []⟩ "u1" 0 "C" 150 =
      (.thrown .insufficientFunds, ⟨[], [⟨"bm1", "u1", 0, 100⟩], [⟨"C", "bm1", 0, 0⟩], []⟩) ∧
    (assign ⟨[], [⟨"bm1", "u1", 0, 100⟩], [⟨"C", "bm1", 0, 0⟩], []⟩ "u1" 0 "C" 60).1 = .ok 200 ∧
    ((assign ⟨[], [⟨"bm1", "u1", 0, 100⟩], [⟨"C", "bm1", 0, 0⟩], []⟩ "u1" 0 "C" 60).2).budgetMonths =
      [⟨"bm1", "u1", 0, 40⟩] ∧
    ((assign ⟨[], [⟨"bm1", "u1", 0, 100⟩], [⟨"C", "bm1", 0, 0⟩], []⟩ "u1" 0 "C" 60).2).categories =
      [⟨"C", "bm1", 0 + 60, 0⟩] :=
  have h1 := C5_assign ⟨[], [⟨"bm1", "u1", 0, 100⟩], [⟨"C", "bm1", 0, 0⟩], []⟩ "u1" 0 "C" (-1)
    (⟨"bm1", "u1", 0, 100⟩ : BudgetMonth) (⟨"C", "bm1", 0, 0⟩ : Category) (by decide) (by decide)
  have h2 := C5_assign ⟨[], [⟨"bm1", "u1", 0, 100⟩], [⟨"C", "bm1", 0, 0⟩], []⟩ "u1" 0 "C" 150
    (⟨"bm1", "u1", 0, 100⟩ : BudgetMonth) (⟨"C", "bm1", 0, 0⟩ : Category) (by decide) (by decide)
  have h3 := C5_assign ⟨[], [⟨"bm1", "u1", 0, 100⟩], [⟨"C", "bm1", 0, 0⟩], []⟩ "u1" 0 "C" 60
    (⟨"bm1", "u1", 0, 100⟩ : BudgetMonth) (⟨"C", "bm1", 0, 0⟩ : Category) (by decide) (by decide)
  have h3s := h3.2.2 (by decide) (by decide)
  ⟨h1.1 (by decide), h2.2.1 (by decide) (by decide), h3s.1,
   h3s.2.1.trans (by decide), h3s.2.2.trans (by decide)⟩

/-- C10: for a patch that does not change the account, sending
`categoryId: null` explicitly detaches the row from its category (the
updated row's categoryId is null) and decrements the old category's spent by
the old spend contribution when that contribution is positive, leaving
category rows untouched otherwise; while omitting categoryId from the
payload leaves every updated row's category association exactly as before
(stated under distinct transaction ids). -/
theorem C10_patch_categoryId :
    (∀ (db : DB) (uid txId : String) (input : PatchInput) (existing : Txn),
      findTxn db uid txId = some existing →
      input.accountId = none →
      input.categoryId = some none →
      (patch db uid txId input).1 = .ok 200 ∧
      (∀ t ∈ ((patch db uid txId input).2).transactions, t.id = txId →
        t.categoryId = none) ∧
      ((patch db uid txId input).2).categories =
        (if truthy existing.categoryId = true ∧
            0 < spendingAmount existing.categoryId existing.amount
         then (updateSpent db (existing.categoryId.getD "")
            (-(spendingAmount existing.categoryId existing.amount))).categories
         else db.categories)) ∧
    (∀ (db : DB) (uid txId : String) (input : PatchInput) (existing : Txn),
      findTxn db uid txId = some existing →
      (db.transactions.map Txn.id).Nodup →
      input.categoryId = none →
      ∀ t ∈ ((patch db uid txId input).2).transactions, t.id = txId →
        t.categoryId = existing.categoryId) := by
  constructor
  · intro db uid txId input existing hfind haccnone hcid
    have hnc : (mergeNext existing input).categoryId = none := by
      simp [mergeNext, hcid]
    have hsame : (mergeNext existing input).accountId = existing.accountId := by
      simp [mergeNext, haccnone]
    have hns : spendingAmount (mergeNext existing input).categoryId
        (mergeNext existing input).amount = 0 := by
      rw [hnc]
      exact spendingAmount_eq_zero (Or.inl rfl)
    have hens := ensureCategoryAvailability_of_nonpos db uid
      (mergeNext existing input).categoryId
      (spendingAmount (mergeNext existing input).categoryId (mergeNext existing input).amount)
      (if (mergeNext existing input).categoryId = existing.categoryId
       then spendingAmount existing.categoryId existing.amount else 0)
      (le_of_eq hns)
    have hpatch := patch_same_account_result db uid txId input existing hfind hens hsame
    refine ⟨?_, ?_, ?_⟩
    · rw [hpatch]
    · intro t ht hid
      rw [hpatch] at ht
      simp only [adjustCategories_transactions, updateBalance_transactions,
        setTxnRow] at ht
      rcases List.mem_map.mp ht with ⟨u, hu, hut⟩
      by_cases h' : u.id = txId
      · rw [if_pos h'] at hut
        rw [← hut, hnc]
      · rw [if_neg h'] at hut
        rw [← hut] at hid
        exact absurd hid h'
    · rw [hpatch]
      simp only [adjustCategories]
      rw [if_neg]
      · unfold adjustOldCategory
        split
        case isTrue hg => simp [updateSpent]
        case isFalse hg => simp
      · rw [hnc]
        rintro ⟨hf, -⟩
        cases hf
  · intro db uid txId input existing hfind hnodup hcid t ht hid
    have hnext : (mergeNext existing input).categoryId = existing.categoryId := by
      simp [mergeNext, hcid]
    cases hens : ensureCategoryAvailability db uid (mergeNext existing input).categoryId
      (spendingAmount (mergeNext existing input).categoryId (mergeNext existing input).amount)
      (if (mergeNext existing input).categoryId = existing.categoryId
       then spendingAmount existing.categoryId existing.amount else 0) with
    | some e =>
      have hdb : (patch db uid txId input).2 = db := by
        simp [patch, hfind, hens]
      rw [hdb] at ht
      have hexmem : existing ∈ db.transactions := List.mem_of_find?_eq_some hfind
      have hexid : existing.id = txId := by
        have hpred := List.find?_some hfind
        simp only [Bool.and_eq_true, decide_eq_true_eq] at hpred
        exact hpred.1
      have heq : t = existing :=
        List.inj_on_of_nodup_map hnodup ht hexmem (by rw [hid, hexid])
      rw [heq]
    | none =>
      have htx : ((patch db uid txId input).2).transactions =
          (setTxnRow db txId (mergeNext existing input)).transactions := by
        by_cases hsame : (mergeNext existing input).accountId = existing.accountId
        · simp [patch, hfind, hens, hsame]
        · cases hfa : findAccount (setTxnRow db txId (mergeNext existing input)) uid
            (mergeNext existing input).accountId with
          | none => simp [patch, hfind, hens, hsame, hfa]
          | some a2 => simp [patch, hfind, hens, hsame, hfa]
      rw [htx] at ht
      simp only [setTxnRow] at ht
      rcases List.mem_map.mp ht with ⟨u, hu, hut⟩
      by_cases h' : u.id = txId
      · rw [if_pos h'] at hut
        rw [← hut, hnext]
      · rw [if_neg h'] at hut
        rw [← hut] at hid
        exact absurd hid h'

/-- Witness for C10 at concrete inputs: patching `categoryId: null` on a
categorized transaction of amount 10 (category assigned 50, spent 10)
succeeds, leaves the category with spent 0, and detaches the updated row;
patching only the amount leaves the row's category association intact. -/
theorem C10_patch_categoryId_witness :
    (patch ⟨[⟨"A", "u1", 0⟩], [⟨"bm1", "u1", 0, 0⟩], [⟨"C", "bm1", 50, 10⟩],
        [⟨"t1", "A", some "C", 10, 0, none, none, false⟩]⟩
      "u1" "t1" { PatchInput.empty with categoryId := some none }).1 = .ok 200 ∧
    ((patch ⟨[⟨"A", "u1", 0⟩], [⟨"bm1", "u1", 0, 0⟩], [⟨"C", "bm1", 50, 10⟩],
        [⟨"t1", "A", some "C", 10, 0, none, none, false⟩]⟩
      "u1" "t1" { PatchInput.empty with categoryId := some none }).2).categories =
      [⟨"C", "bm1", 50, 0⟩] ∧
    (⟨"t1", "A", none, 10, 0, none, none, false⟩ : Txn).categoryId = none ∧
    (⟨"t1", "A", some "C", 12, 0, none, none, false⟩ : Txn).categoryId = some "C" :=
  have ha := C10_patch_categoryId.1
    ⟨[⟨"A", "u1", 0⟩], [⟨"bm1", "u1", 0, 0⟩], [⟨"C", "bm1", 50, 10⟩],
      [⟨"t1", "A", some "C", 10, 0, none, none, false⟩]⟩
    "u1" "t1" { PatchInput.empty with categoryId := some none }
    (⟨"t1", "A", some "C", 10, 0, none, none, false⟩ : Txn)
    (by decide) (by decide) (by decide)
  ⟨ha.1, ha.2.2.trans (by decide),
   ha.2.1 (⟨"t1", "A", none, 10, 0, none, none, false⟩ : Txn) (by decide) (by decide),
   C10_patch_categoryId.2
     ⟨[⟨"A", "u1", 0⟩], [⟨"bm1", "u1", 0, 0⟩], [⟨"C", "bm1", 50, 10⟩],
       [⟨"t1", "A", some "C", 10, 0, none, none, false⟩]⟩
     "u1" "t1" { PatchInput.empty with amount := some 12 }
     (⟨"t1", "A", some "C", 10, 0, none, none, false⟩ : Txn)
     (by decide) (by decide) (by decide)
     (⟨"t1", "A", some "C", 12, 0, none, none, false⟩ : Txn) (by decide) (by decide)⟩

/-- C7: a successful create immediately followed by a remove of the created
transaction (its generated id being fresh) restores every account balance,
every category's spent value, and the transaction table itself, exactly to
their pre-create state. -/
theorem C7_create_remove_roundtrip (db : DB) (uid : String) (input : CreateInput)
    (newId : String) (account : Account)
    (hacc : findAccount db uid input.accountId = some account)
    (hens : ensureCategoryAvailability db uid input.categoryId
      (spendingAmount input.categoryId input.amount) 0 = none)
    (hfresh : ∀ t ∈ db.transactions, t.id ≠ newId) :
    (create db uid input newId).1 = .ok 201 ∧
    (remove (create db uid input newId).2 uid newId).1 = .ok 200 ∧
    ((remove (create db uid input newId).2 uid newId).2).accounts = db.accounts ∧
    ((remove (create db uid input newId).2 uid newId).2).categories = db.categories ∧
    ((remove (create db uid input newId).2 uid newId).2).transactions = db.transactions := by
  obtain ⟨hok, htrans, haccs, hcats, -⟩ := create_ok_parts db uid input newId account hacc hens
  have hpa := List.find?_some hacc
  simp only [decide_eq_true_eq] at hpa
  rw [hpa.1] at haccs
  have hamem := List.mem_of_find?_eq_some hacc
  have howns : ownsAccount (create db uid input newId).2 uid input.accountId = true := by
    unfold ownsAccount
    rw [haccs, List.any_eq_true]
    refine ⟨(fun a => if a.id = input.accountId
        then { a with balance := a.balance + -input.amount } else a) account,
      List.mem_map_of_mem _ hamem, ?_⟩
    simp [hpa.1, hpa.2]
  have hfind : findTxn (create db uid input newId).2 uid newId =
      some (createdTxn input newId) := by
    unfold findTxn
    rw [htrans, List.find?_append]
    have h1 : db.transactions.find? (fun t => decide (t.id = newId) &&
        ownsAccount (create db uid input newId).2 uid t.accountId) = none := by
      rw [List.find?_eq_none]
      intro t ht
      simp [hfresh t ht]
    rw [h1, Option.none_or]
    simp [List.find?_cons, createdTxn, howns]
  refine ⟨hok, ?_, ?_, ?_, ?_⟩
  · simp [remove, hfind]
  · have hra : ((remove (create db uid input newId).2 uid newId).2).accounts =
        ((create db uid input newId).2).accounts.map
          (fun a => if a.id = input.accountId
            then { a with balance := a.balance + input.amount } else a) := by
      simp only [remove, hfind]
      split <;> simp [updateBalance, updateSpent, createdTxn]
    rw [hra, haccs]
    exact balance_map_cancel db.accounts input.accountId (-input.amount) input.amount (by omega)
  · by_cases hsp : 0 < spendingAmount input.categoryId input.amount
    · obtain ⟨htr, -, -⟩ := spendingAmount_pos hsp
      have hguard : truthy (createdTxn input newId).categoryId = true ∧
          0 < spendingAmount (createdTxn input newId).categoryId
            (createdTxn input newId).amount := ⟨htr, hsp⟩
      have hrc : ((remove (create db uid input newId).2 uid newId).2).categories =
          ((create db uid input newId).2).categories.map
            (fun c => if c.id = input.categoryId.getD ""
              then { c with spent := c.spent +
                -(spendingAmount input.categoryId input.amount) } else c) := by
        simp only [remove, hfind]
        rw [if_pos hguard]
        simp [updateSpent, updateBalance, createdTxn]
      rw [hrc, hcats, if_pos hsp]
      exact spent_map_cancel db.categories (input.categoryId.getD "")
        (spendingAmount input.categoryId input.amount)
        (-(spendingAmount input.categoryId input.amount)) (by omega)
    · have hguardneg : ¬ (truthy (createdTxn input newId).categoryId = true ∧
          0 < spendingAmount (createdTxn input newId).categoryId
            (createdTxn input newId).amount) := by
        rintro ⟨-, hp⟩
        exact hsp hp
      have hrc : ((remove (create db uid input newId).2 uid newId).2).categories =
          ((create db uid input newId).2).categories := by
        simp only [remove, hfind]
        rw [if_neg hguardneg]
        simp
      rw [hrc, hcats, if_neg hsp]
  · have hrt := remove_transactions_of_some _ uid newId _ hfind
    rw [hrt, htrans, List.filter_append]
    have h1 : db.transactions.filter (fun t => t.id ≠ newId) = db.transactions :=
      List.filter_eq_self.mpr (fun t ht => by simp [hfresh t ht])
    have h2 : ([createdTxn input newId].filter (fun t => t.id ≠ newId)) = ([] : List Txn) := by
      simp [createdTxn]
    rw [h1, h2, List.append_nil]

/-- Witness for C7 at the spec's scenario 2 numbers: balance 100, category C
assigned 50 spent 0; create a categorized transaction of 20 and remove it:
the final accounts, categories and transactions equal the initial ones. -/
theorem C7_create_remove_roundtrip_witness :
    (create ⟨[⟨"A", "u1", 100⟩], [⟨"bm1", "u1", 0, 0⟩], [⟨"C", "bm1", 50, 0⟩], []⟩
      "u1" ⟨"A", some "C", 20, 0, none, none, none⟩ "t1").1 = .ok 201 ∧
    (remove (create ⟨[⟨"A", "u1", 100⟩], [⟨"bm1", "u1", 0, 0⟩], [⟨"C", "bm1", 50, 0⟩], []⟩
      "u1" ⟨"A", some "C", 20, 0, none, none, none⟩ "t1").2 "u1" "t1").1 = .ok 200 ∧
    ((remove (create ⟨[⟨"A", "u1", 100⟩], [⟨"bm1", "u1", 0, 0⟩], [⟨"C", "bm1", 50, 0⟩], []⟩
      "u1" ⟨"A", some "C", 20, 0, none, none, none⟩ "t1").2 "u1" "t1").2).accounts =
      [⟨"A", "u1", 100⟩] ∧
    ((remove (create ⟨[⟨"A", "u1", 100⟩], [⟨"bm1", "u1", 0, 0⟩], [⟨"C", "bm1", 50, 0⟩], []⟩
      "u1" ⟨"A", some "C", 20, 0, none, none, none⟩ "t1").2 "u1" "t1").2).categories =
      [⟨"C", "bm1", 50, 0⟩] ∧
    ((remove (create ⟨[⟨"A", "u1", 100⟩], [⟨"bm1", "u1", 0, 0⟩], [⟨"C", "bm1", 50, 0⟩], []⟩
      "u1" ⟨"A", some "C", 20, 0, none, none, none⟩ "t1").2 "u1" "t1").2).transactions = [] :=
  have h := C7_create_remove_roundtrip
    ⟨[⟨"A", "u1", 100⟩], [⟨"bm1", "u1", 0, 0⟩], [⟨"C", "bm1", 50, 0⟩], []⟩
    "u1" ⟨"A", some "C", 20, 0, none, none, none⟩ "t1" (⟨"A", "u1", 100⟩ : Account)
    (by decide) (by decide) (by decide)
  ⟨h.1, h.2.1, h.2.2.1, h.2.2.2.1, h.2.2.2.2⟩

/-- C1: counter-evidence.  User u1 owns account A and transaction t1 on A
(amount 25); account B belongs to user u2.  Patching t1 with accountId B
returns the 404 "New account not found" result — but that result object is
returned, not thrown, so the transaction-row update made just before the
account check commits: t1's accountId is now B while both balances are
untouched.  The state after the failed patch differs from the state before
it, contradicting the claim that nothing is mutated. -/
theorem C1_patch_commits_row_on_account_notFound :
    (patch ⟨[⟨"A", "u1", 100⟩, ⟨"B", "u2", 50⟩], [], [],
        [⟨"t1", "A", none, 25, 0, none, none, false⟩]⟩
      "u1" "t1" { PatchInput.empty with accountId := some "B" }).1 =
      .notFound "New account not found" ∧
    ((patch ⟨[⟨"A", "u1", 100⟩, ⟨"B", "u2", 50⟩], [], [],
        [⟨"t1", "A", none, 25, 0, none, none, false⟩]⟩
      "u1" "t1" { PatchInput.empty with accountId := some "B" }).2).accounts =
      [⟨"A", "u1", 100⟩, ⟨"B", "u2", 50⟩] ∧
    ((patch ⟨[⟨"A", "u1", 100⟩, ⟨"B", "u2", 50⟩], [], [],
        [⟨"t1", "A", none, 25, 0, none, none, false⟩]⟩
      "u1" "t1" { PatchInput.empty with accountId := some "B" }).2).transactions =
      [⟨"t1", "B", none, 25, 0, none, none, false⟩] ∧
    (patch ⟨[⟨"A", "u1", 100⟩, ⟨"B", "u2", 50⟩], [], [],
        [⟨"t1", "A", none, 25, 0, none, none, false⟩]⟩
      "u1" "t1" { PatchInput.empty with accountId := some "B" }).2 ≠
      ⟨[⟨"A", "u1", 100⟩, ⟨"B", "u2", 50⟩], [], [],
        [⟨"t1", "A", none, 25, 0, none, none, false⟩]⟩ := by
  decide

/-- C2: counter-evidence.  Starting from fresh accounts A (u1) and B (u2)
with balance 0 and no transactions, create t1 on A with amount 25 (the
balance identity holds: A is −25 with t1 the only row on A), then patch t1
with accountId B.  The patch returns 404 but commits the row's accountId
change without any balance write: afterwards some account's balance matches
the sum of the amounts of the active transactions referencing it under
neither sign convention, so the balance identity fails after this sequence
of operations. -/
theorem C2_balance_identity_violated :
    ((patch (create ⟨[⟨"A", "u1", 0⟩, ⟨"B", "u2", 0⟩], [], [], []⟩ "u1"
        ⟨"A", none, 25, 0, none, none, none⟩ "t1").2
      "u1" "t1" { PatchInput.empty with accountId := some "B" }).1 =
      .notFound "New account not found") ∧
    ((patch (create ⟨[⟨"A", "u1", 0⟩, ⟨"B", "u2", 0⟩], [], [], []⟩ "u1"
        ⟨"A", none, 25, 0, none, none, none⟩ "t1").2
      "u1" "t1" { PatchInput.empty with accountId := some "B" }).2).accounts =
      [⟨"A", "u1", -25⟩, ⟨"B", "u2", 0⟩] ∧
    txnSum (patch (create ⟨[⟨"A", "u1", 0⟩, ⟨"B", "u2", 0⟩], [], [], []⟩ "u1"
        ⟨"A", none, 25, 0, none, none, none⟩ "t1").2
      "u1" "t1" { PatchInput.empty with accountId := some "B" }).2 "A" = 0 ∧
    txnSum (patch (create ⟨[⟨"A", "u1", 0⟩, ⟨"B", "u2", 0⟩], [], [], []⟩ "u1"
        ⟨"A", none, 25, 0, none, none, none⟩ "t1").2
      "u1" "t1" { PatchInput.empty with accountId := some "B" }).2 "B" = 25 ∧
    (∃ a ∈ ((patch (create ⟨[⟨"A", "u1", 0⟩, ⟨"B", "u2", 0⟩], [], [], []⟩ "u1"
        ⟨"A", none, 25, 0, none, none, none⟩ "t1").2
      "u1" "t1" { PatchInput.empty with accountId := some "B" }).2).accounts,
      ¬ (a.balance = txnSum (patch (create ⟨[⟨"A", "u1", 0⟩, ⟨"B", "u2", 0⟩], [], [], []⟩ "u1"
          ⟨"A", none, 25, 0, none, none, none⟩ "t1").2
        "u1" "t1" { PatchInput.empty with accountId := some "B" }).2 a.id ∨
        a.balance = -(txnSum (patch (create ⟨[⟨"A", "u1", 0⟩, ⟨"B", "u2", 0⟩], [], [], []⟩ "u1"
          ⟨"A", none, 25, 0, none, none, none⟩ "t1").2
        "u1" "t1" { PatchInput.empty with accountId := some "B" }).2 a.id))) := by
  decide

/-- C3: counter-evidence.  Category C has assigned 100, spent 0; create t1
on account A with category C and amount 25 (spent becomes 25, matching the
spend identity), then patch t1 with accountId B (owned by u2) and amount 40.
The availability check passes, the row update (amount 40) commits, and the
patch then returns 404 before any spent write: afterwards C's recorded spent
is 25 while the spend contributions of the active transactions referencing C
sum to 40, so the spend identity fails after this sequence of operations. -/
theorem C3_spend_identity_violated :
    ((patch (create ⟨[⟨"A", "u1", 0⟩, ⟨"B", "u2", 0⟩], [⟨"bm1", "u1", 0, 0⟩],
        [⟨"C", "bm1", 100, 0⟩], []⟩ "u1"
        ⟨"A", some "C", 25, 0, none, none, none⟩ "t1").2
      "u1" "t1" { PatchInput.empty with accountId := some "B", amount := some 40 }).1 =
      .notFound "New account not found") ∧
    ((patch (create ⟨[⟨"A", "u1", 0⟩, ⟨"B", "u2", 0⟩], [⟨"bm1", "u1", 0, 0⟩],
        [⟨"C", "bm1", 100, 0⟩], []⟩ "u1"
        ⟨"A", some "C", 25, 0, none, none, none⟩ "t1").2
      "u1" "t1" { PatchInput.empty with accountId := some "B", amount := some 40 }).2).categories =
      [⟨"C", "bm1", 100, 25⟩] ∧
    spentSum (patch (create ⟨[⟨"A", "u1", 0⟩, ⟨"B", "u2", 0⟩], [⟨"bm1", "u1", 0, 0⟩],
        [⟨"C", "bm1", 100, 0⟩], []⟩ "u1"
        ⟨"A", some "C", 25, 0, none, none, none⟩ "t1").2
      "u1" "t1" { PatchInput.empty with accountId := some "B", amount := some 40 }).2 "C" = 40 ∧
    (∃ c ∈ ((patch (create ⟨[⟨"A", "u1", 0⟩, ⟨"B", "u2", 0⟩], [⟨"bm1", "u1", 0, 0⟩],
        [⟨"C", "bm1", 100, 0⟩], []⟩ "u1"
        ⟨"A", some "C", 25, 0, none, none, none⟩ "t1").2
      "u1" "t1" { PatchInput.empty with accountId := some "B", amount := some 40 }).2).categories,
      ¬ c.spent = spentSum (patch (create ⟨[⟨"A", "u1", 0⟩, ⟨"B", "u2", 0⟩], [⟨"bm1", "u1", 0, 0⟩],
          [⟨"C", "bm1", 100, 0⟩], []⟩ "u1"
          ⟨"A", some "C", 25, 0, none, none, none⟩ "t1").2
        "u1" "t1" { PatchInput.empty with accountId := some "B", amount := some 40 }).2 c.id) := by
  decide

end Ynab
